import Mathlib

/-!
Shallow embedding of the statistics pipeline of
`src/BioreactorHandleAnalysis.jsx` (a React survey-analysis component).

The statistical core operates on JavaScript numbers, so we model JS
numbers as an exact linear-ordered field extended with `nan`, `inf`
(`Infinity`) and `negInf` (`-Infinity`), with the IEEE-754 behaviour of
the arithmetic operators that the source uses (`-0` is not
distinguished from `0`; no embedded code path distinguishes them).
The aggregate scorer, demographic tabulator and descriptive statistics
are instantiated at `ℚ` (exact rational arithmetic, fully executable),
while the functions that use `Math.sqrt` (`tTest`, `cohenD`,
`calculateCI`) are instantiated at `ℝ` with `Real.sqrt`.

mathjs behaviour embedded here, per its source semantics:
`math.std`/`math.variance` default to normalization `unbiased`
(divisor `n - 1`); for a one-element array the unbiased branch
explicitly returns 0 instead of dividing by zero
(`return num === 1 ? zero : divide(sum, num - 1)`); and `math.mean` of
an empty array throws ("Cannot calculate the mean of an empty array"),
modelled with `Except`.
-/

namespace Bioreactor

/-- A JavaScript number: a finite value of the field `α`, `NaN`,
`Infinity` or `-Infinity`. -/
inductive JSNum (α : Type) where
  | num (x : α)
  | nan
  | inf
  | negInf
deriving DecidableEq, Repr

namespace JSNum

variable {α : Type} [LinearOrderedField α]

/-- JS `+` on numbers. -/
def jsAdd : JSNum α → JSNum α → JSNum α
  | num a, num b => num (a + b)
  | nan, _ => nan
  | _, nan => nan
  | inf, negInf => nan
  | negInf, inf => nan
  | inf, _ => inf
  | _, inf => inf
  | negInf, _ => negInf
  | _, negInf => negInf

/-- JS unary `-` on numbers. -/
def jsNeg : JSNum α → JSNum α
  | num a => num (-a)
  | nan => nan
  | inf => negInf
  | negInf => inf

/-- JS binary `-` on numbers. -/
def jsSub (a b : JSNum α) : JSNum α := jsAdd a (jsNeg b)

/-- JS `*` on numbers (`0 * Infinity = NaN`). -/
def jsMul : JSNum α → JSNum α → JSNum α
  | num a, num b => num (a * b)
  | nan, _ => nan
  | _, nan => nan
  | inf, num b => if b = 0 then nan else if 0 < b then inf else negInf
  | num a, inf => if a = 0 then nan else if 0 < a then inf else negInf
  | negInf, num b => if b = 0 then nan else if 0 < b then negInf else inf
  | num a, negInf => if a = 0 then nan else if 0 < a then negInf else inf
  | inf, inf => inf
  | inf, negInf => negInf
  | negInf, inf => negInf
  | negInf, negInf => inf

/-- JS `/` on numbers (`0/0 = NaN`, `x/0 = ±Infinity` for finite `x ≠ 0`;
division by `-0` does not arise since `-0` is not modelled). -/
def jsDiv : JSNum α → JSNum α → JSNum α
  | nan, _ => nan
  | _, nan => nan
  | num a, num b =>
      if b = 0 then (if a = 0 then nan else if 0 < a then inf else negInf)
      else num (a / b)
  | inf, num b => if 0 ≤ b then inf else negInf
  | negInf, num b => if 0 ≤ b then negInf else inf
  | num _, inf => num 0
  | num _, negInf => num 0
  | inf, inf => nan
  | inf, negInf => nan
  | negInf, inf => nan
  | negInf, negInf => nan

/-- JS `Math.abs`. -/
def jsAbs : JSNum α → JSNum α
  | num a => num |a|
  | nan => nan
  | inf => inf
  | negInf => inf

/-- JS `Math.max` of two numbers (`NaN` absorbs). -/
def jsMax : JSNum α → JSNum α → JSNum α
  | nan, _ => nan
  | _, nan => nan
  | num a, num b => num (max a b)
  | inf, _ => inf
  | _, inf => inf
  | negInf, b => b
  | a, negInf => a

/-- JS strict equality `===` on numbers (`NaN === NaN` is false). -/
def jsStrictEq : JSNum α → JSNum α → Bool
  | num a, num b => a = b
  | nan, _ => false
  | _, nan => false
  | inf, inf => true
  | negInf, negInf => true
  | _, _ => false

/-- JS `>` on numbers (any comparison with `NaN` is false). -/
def jsGt : JSNum α → JSNum α → Bool
  | nan, _ => false
  | _, nan => false
  | num a, num b => b < a
  | inf, inf => false
  | inf, _ => true
  | _, inf => false
  | negInf, _ => false
  | _, negInf => true

/-- JS `<` on numbers (any comparison with `NaN` is false). -/
def jsLt : JSNum α → JSNum α → Bool
  | nan, _ => false
  | _, nan => false
  | num a, num b => a < b
  | inf, _ => false
  | _, inf => true
  | negInf, negInf => false
  | negInf, _ => true
  | _, negInf => false

/-- JS `<=` on numbers (any comparison with `NaN` is false). -/
def jsLe : JSNum α → JSNum α → Bool
  | nan, _ => false
  | _, nan => false
  | num a, num b => a ≤ b
  | _, inf => true
  | inf, _ => false
  | negInf, _ => true
  | _, negInf => false

/-- JS truthiness of a number: `0` and `NaN` are falsy. -/
def jsTruthy : JSNum α → Bool
  | num a => a ≠ 0
  | nan => false
  | inf => true
  | negInf => true

end JSNum

/-! ## CSV cell values and rows

Papa Parse with `dynamicTyping` produces numbers, strings, booleans and
`null`; a column missing from a row reads as `undefined`.  We conflate
`null` and `undefined` into `Val.null`: every embedded code path treats
them identically (both fail the `v !== null && v !== undefined` filter,
both are falsy, and both reach arithmetic only behind truthiness
guards). -/

/-- A cell value of a parsed CSV row. -/
inductive Val where
  | num (q : ℚ)
  | str (s : String)
  | bool (b : Bool)
  | null
deriving DecidableEq, Repr

/-- JS truthiness of a cell value. -/
def Val.truthy : Val → Bool
  | .num q => q ≠ 0
  | .str s => s ≠ ""
  | .bool b => b
  | .null => false

/-- A Response Row: a mapping from field name to cell value
(`row[field]`). -/
def Row : Type := String → Val

/-! ## JS `ToNumber` on strings

Implements the string-to-number coercion JS applies inside arithmetic:
trimmed empty string is `0`; otherwise the whole trimmed string must be
a numeric literal (signed decimal with optional fraction/exponent,
`Infinity`, or unsigned hex/octal/binary), else `NaN`. -/

/-- Value of a run of decimal digits. -/
def digitsToNat (ds : List Char) : ℕ :=
  ds.foldl (fun a c => 10 * a + (c.toNat - 48)) 0

/-- Value of one hexadecimal digit. -/
def hexDigitToNat (c : Char) : ℕ :=
  if c.isDigit then c.toNat - 48
  else if 'a' ≤ c then c.toNat - 87
  else c.toNat - 55

/-- Value of a digit run in base `b`. -/
def digitsToNatBase (b : ℕ) (ds : List Char) : ℕ :=
  ds.foldl (fun a c => b * a + hexDigitToNat c) 0

/-- Parse the exponent tail of a decimal literal (empty, or
`e`/`E` followed by an optionally signed digit run). -/
def parseExpTail : List Char → Option ℤ
  | [] => some 0
  | c :: r =>
    if c = 'e' ∨ c = 'E' then
      match r with
      | '+' :: ds =>
          if !ds.isEmpty && ds.all Char.isDigit then some (digitsToNat ds) else none
      | '-' :: ds =>
          if !ds.isEmpty && ds.all Char.isDigit then some (-(digitsToNat ds : ℤ)) else none
      | ds =>
          if !ds.isEmpty && ds.all Char.isDigit then some (digitsToNat ds) else none
    else none

/-- Parse an unsigned decimal literal (`digits`, `digits.digits`,
`.digits`, with optional exponent), consuming the whole input. -/
def parseDecimal (cs : List Char) : Option ℚ :=
  let ip := cs.takeWhile Char.isDigit
  let rest := cs.drop ip.length
  match rest with
  | '.' :: r2 =>
    let fp := r2.takeWhile Char.isDigit
    let rest2 := r2.drop fp.length
    if ip.isEmpty && fp.isEmpty then none
    else (parseExpTail rest2).map fun e =>
      ((digitsToNat ip : ℚ) + (digitsToNat fp : ℚ) / (10 : ℚ) ^ fp.length) * (10 : ℚ) ^ e
  | _ =>
    if ip.isEmpty then none
    else (parseExpTail rest).map fun e => (digitsToNat ip : ℚ) * (10 : ℚ) ^ e

/-- Parse the body allowed after an explicit sign: `Infinity` or a
decimal literal (hex/octal/binary literals may not be signed). -/
def parseSignedTail (cs : List Char) : Option (JSNum ℚ) :=
  if cs = "Infinity".toList then some .inf
  else (parseDecimal cs).map .num

/-- Parse an unsigned numeric literal, including hex/octal/binary. -/
def parseUnsigned (cs : List Char) : Option (JSNum ℚ) :=
  match cs with
  | '0' :: 'x' :: r | '0' :: 'X' :: r =>
      if !r.isEmpty && r.all (fun c =>
          c.isDigit || ('a' ≤ c && c ≤ 'f') || ('A' ≤ c && c ≤ 'F')) then
        some (.num (digitsToNatBase 16 r))
      else none
  | '0' :: 'o' :: r | '0' :: 'O' :: r =>
      if !r.isEmpty && r.all (fun c => '0' ≤ c && c ≤ '7') then
        some (.num (digitsToNatBase 8 r))
      else none
  | '0' :: 'b' :: r | '0' :: 'B' :: r =>
      if !r.isEmpty && r.all (fun c => c = '0' || c = '1') then
        some (.num (digitsToNatBase 2 r))
      else none
  | _ => parseSignedTail cs

/-- JS `ToNumber` applied to a string. -/
def strToNumber (s : String) : JSNum ℚ :=
  let cs := s.trim.toList
  if cs.isEmpty then .num 0
  else match cs with
    | '+' :: r => (parseSignedTail r).getD .nan
    | '-' :: r => ((parseSignedTail r).map JSNum.jsNeg).getD .nan
    | _ => (parseUnsigned cs).getD .nan

/-- JS `ToNumber` on a cell value (`Number(null) = 0`; the `.null`
branch is reachable only behind truthiness guards in the embedded
code, so conflating `undefined` with `null` here is inconsequential). -/
def Val.toNumber : Val → JSNum ℚ
  | .num q => .num q
  | .str s => strToNumber s
  | .bool b => .num (if b then 1 else 0)
  | .null => .num 0

/-- `v || 0` as used by the scorer: a falsy cell is replaced by `0`. -/
def orZero (v : Val) : Val := if v.truthy then v else .num 0

/-! ## Post-parse attempt-field cleanup (`fetchData`, lines 56-68)

```js
const attemptFields = ['Number of Attempts', 'Number of Attempts_1', 'Number of Attempts_2'];
attemptFields.forEach(field => {
  if (row[field] && typeof row[field] === 'string') {
    const numericPart = row[field].match(/^\d+/);
    if (numericPart) row[field] = parseInt(numericPart[0], 10);
  }
});
``` -/

/-- The three fields the cleanup pass may rewrite. -/
def attemptFields : List String :=
  ["Number of Attempts", "Number of Attempts_1", "Number of Attempts_2"]

/-- The leading digit run of a string (`match(/^\d+/)`). -/
def leadingDigits (s : String) : List Char := s.toList.takeWhile Char.isDigit

/-- Cleanup of one attempt-field cell: a truthy string whose leading
characters are digits becomes the integer parsed from that digit run;
everything else is left unchanged. -/
def cleanVal : Val → Val
  | .str s =>
      if s ≠ "" then
        (if (leadingDigits s).isEmpty then .str s
         else .num (digitsToNat (leadingDigits s)))
      else .str s
  | v => v

/-- The whole cleanup pass on one row. -/
def cleanRow (row : Row) : Row :=
  fun f => if f ∈ attemptFields then cleanVal (row f) else row f

/-! ## Aggregate scorer (`calculateAggregateScores`, lines 270-343) -/

/-- The weighted composite score of one handle for one row:
```js
const rectAttempts = row['Number of Attempts'] ? (maxAttempts - row['Number of Attempts']) : 0;
const rectangleScore = (
  1.5 * (row['Positioning Accuracy'] || 0) +
  1.0 * rectAttempts +
  1.2 * (row['Comfort'] || 0) +
  1.0 * (row['Grip Security'] || 0) +
  1.0 * (row['Ease of Use'] || 0) +
  0.8 * (row['Intuitiveness '] || 0) +
  1.5 * (row['Overall Satisfaction'] || 0)
) / 8.0;
```
with `maxAttempts = 5`; the three handles use the same shape with the
`_1` / `_2` field-name suffixes. -/
def handleScore (row : Row)
    (accF attF comfF gripF easeF intF satF : String) : JSNum ℚ :=
  let att : JSNum ℚ :=
    if (row attF).truthy then JSNum.jsSub (.num 5) (row attF).toNumber else .num 0
  JSNum.jsDiv
    (JSNum.jsAdd (JSNum.jsAdd (JSNum.jsAdd (JSNum.jsAdd (JSNum.jsAdd (JSNum.jsAdd
      (JSNum.jsMul (.num 1.5) (orZero (row accF)).toNumber)
      (JSNum.jsMul (.num 1) att))
      (JSNum.jsMul (.num 1.2) (orZero (row comfF)).toNumber))
      (JSNum.jsMul (.num 1) (orZero (row gripF)).toNumber))
      (JSNum.jsMul (.num 1) (orZero (row easeF)).toNumber))
      (JSNum.jsMul (.num 0.8) (orZero (row intF)).toNumber))
      (JSNum.jsMul (.num 1.5) (orZero (row satF)).toNumber))
    (.num 8)

/-- Rectangle Handle composite score (bare field names). -/
def rectangleScore (row : Row) : JSNum ℚ :=
  handleScore row "Positioning Accuracy" "Number of Attempts" "Comfort"
    "Grip Security" "Ease of Use" "Intuitiveness " "Overall Satisfaction"

/-- Curved Handle composite score (`_1` field names). -/
def curvedScore (row : Row) : JSNum ℚ :=
  handleScore row "Positioning Accuracy_1" "Number of Attempts_1" "Comfort_1"
    "Grip Security_1" "Ease of Use_1" "Intuitiveness _1" "Overall Satisfaction_1"

/-- Circle Undergrip Handle composite score (`_2` field names). -/
def circleScore (row : Row) : JSNum ℚ :=
  handleScore row "Positioning Accuracy_2" "Number of Attempts_2" "Comfort_2"
    "Grip Security_2" "Ease of Use_2" "Intuitiveness _2" "Overall Satisfaction_2"

/-- The top-choice selection:
```js
topChoice: Math.max(r, c, ci) === r ? 'Rectangle Handle'
  : Math.max(r, c, ci) === c ? 'Curved Handle' : 'Circle Undergrip Handle'
``` -/
def topChoice3 (r c ci : JSNum ℚ) : String :=
  if JSNum.jsStrictEq (JSNum.jsMax (JSNum.jsMax r c) ci) r then "Rectangle Handle"
  else if JSNum.jsStrictEq (JSNum.jsMax (JSNum.jsMax r c) ci) c then "Curved Handle"
  else "Circle Undergrip Handle"

/-- One entry of the scorer's `detail` list. -/
structure ScoreRec where
  participantId : Val
  rectangleScore : JSNum ℚ
  curvedScore : JSNum ℚ
  circleScore : JSNum ℚ
  topChoice : String
deriving DecidableEq, Repr

/-- The per-row score record built by `data.map(row => ...)`. -/
def scoreRow (row : Row) : ScoreRec :=
  let r := rectangleScore row
  let c := curvedScore row
  let ci := circleScore row
  { participantId :=
      if (row "  Please enter your assigned participant ID:").truthy
      then row "  Please enter your assigned participant ID:"
      else .str "Unknown"
    rectangleScore := r
    curvedScore := c
    circleScore := ci
    topChoice := topChoice3 r c ci }

/-- mathjs error for `mean([])`. -/
def meanEmptyErr : String := "Cannot calculate the mean of an empty array"

/-- mathjs error for arithmetic on a non-numeric argument. -/
def typeErr : String := "Unexpected type of argument"

/-- `math.mean` on a JS-number array: throws on the empty array, else
sum divided by length. -/
def jsMeanExc (l : List (JSNum ℚ)) : Except String (JSNum ℚ) :=
  if l.isEmpty then .error meanEmptyErr
  else .ok (JSNum.jsDiv (l.foldl JSNum.jsAdd (.num 0)) (.num (l.length : ℚ)))

/-- Is a cell value a number? -/
def Val.isNum : Val → Bool
  | .num _ => true
  | _ => false

/-- The numeric content of a cell value, when it is a number. -/
def Val.toNumOpt : Val → Option ℚ
  | .num q => some q
  | _ => none

/-- `math.mean` on an array of raw cell values (as the demographic
tabulator calls it): throws on the empty array, throws a type error if
any element is not a number, else the arithmetic mean. -/
def valMeanExc (l : List Val) : Except String (JSNum ℚ) :=
  if l.isEmpty then .error meanEmptyErr
  else if l.all Val.isNum then
    .ok (.num ((l.filterMap Val.toNumOpt).sum / l.length))
  else .error typeErr

/-- The output record of `calculateAggregateScores` (`average`,
`topChoiceCounts`, `detail`). -/
structure AggScores where
  averageRectangle : JSNum ℚ
  averageCurved : JSNum ℚ
  averageCircle : JSNum ℚ
  topRectangle : ℕ
  topCurved : ℕ
  topCircle : ℕ
  detail : List ScoreRec
deriving DecidableEq, Repr

/-- `calculateAggregateScores`: per-row score records, then the three
average scores (`math.mean`, which throws on an empty array; the Circle
average first drops falsy scores with `.filter(Boolean)`), then the
top-choice counts. -/
def calculateAggregateScores (data : List Row) : Except String AggScores :=
  let scores := data.map scoreRow
  do
    let avgRectangleScore ← jsMeanExc (scores.map (·.rectangleScore))
    let avgCurvedScore ← jsMeanExc (scores.map (·.curvedScore))
    let avgCircleScore ← jsMeanExc ((scores.map (·.circleScore)).filter JSNum.jsTruthy)
    pure
      { averageRectangle := avgRectangleScore
        averageCurved := avgCurvedScore
        averageCircle := avgCircleScore
        topRectangle := (scores.filter (fun s => s.topChoice == "Rectangle Handle")).length
        topCurved := (scores.filter (fun s => s.topChoice == "Curved Handle")).length
        topCircle := (scores.filter (fun s => s.topChoice == "Circle Undergrip Handle")).length
        detail := scores }

/-! ## Demographic cross-tabulator (`calculateDemographicBreakdown`,
lines 346-376) -/

/-- The fixed demographic factor field names (verbatim, including
embedded spaces). -/
def demographicFactors : List String :=
  ["Age Range", "  Gender  ", "  Hand Dominance  ",
   "Previous Experience with Laboratory Equipment  ", "Height"]

/-- `[...new Set(xs)]`: distinct values in first-occurrence order. -/
def dedupFirst (l : List Val) : List Val :=
  l.foldl (fun acc v => if v ∈ acc then acc else acc ++ [v]) []

/-- One demographic breakdown entry: group size and mean preference
rank per handle. -/
structure DemoEntry where
  count : ℕ
  rectangleRank : JSNum ℚ
  curvedRank : JSNum ℚ
  circleRank : JSNum ℚ
deriving DecidableEq, Repr

/-- `calculateDemographicBreakdown`: for each factor, each distinct
truthy value, the matching rows' count and mean preference rank per
handle (ranks filtered by truthiness before `math.mean`). -/
def calculateDemographicBreakdown (data : List Row) :
    Except String (List (String × List (Val × DemoEntry))) :=
  demographicFactors.mapM fun factor => do
    let uniqueValues := dedupFirst ((data.map (fun row => row factor)).filter Val.truthy)
    let entries ← uniqueValues.mapM fun value => do
      let filteredData := data.filter (fun row => decide (row factor = value))
      let rectangleRank ← valMeanExc
        ((filteredData.map (fun row => row "Handle Preference Ranking  [Rectangle Handle]")).filter Val.truthy)
      let curvedRank ← valMeanExc
        ((filteredData.map (fun row => row "Handle Preference Ranking  [Curved Handle]")).filter Val.truthy)
      let circleRank ← valMeanExc
        ((filteredData.map (fun row => row "Handle Preference Ranking  [Circle Undergrip Handle]")).filter Val.truthy)
      pure (value, DemoEntry.mk filteredData.length rectangleRank curvedRank circleRank)
    pure (factor, entries)

/-- The fallible tail of `runStatisticalAnalysis`: the aggregate scorer
followed by the demographic tabulator (the descriptive/pairwise stage
before them is total: `calculateStats`, `tTest` and `cohenD` all guard
the empty sample).  An exception from either stage propagates out of
the statistics pipeline. -/
def runAnalysis (data : List Row) :
    Except String (AggScores × List (String × List (Val × DemoEntry))) := do
  let agg ← calculateAggregateScores data
  let demo ← calculateDemographicBreakdown data
  pure (agg, demo)

/-! ## Descriptive statistics (`calculateStats`, `calculateCI`,
lines 202-214) -/

/-- `math.mean` of a non-empty rational sample. -/
def mathMeanQ (l : List ℚ) : ℚ := l.sum / l.length

/-- Sum of squared deviations from the mean. -/
def sumSqDevQ (l : List ℚ) : ℚ := (l.map (fun x => (x - mathMeanQ l) ^ 2)).sum

/-- `math.variance` with the mathjs default normalization `unbiased`:
0 for a one-element array (mathjs special-cases `num === 1`), else the
sum of squared deviations divided by `n - 1`. -/
def varUnbQ (l : List ℚ) : JSNum ℚ :=
  if l.length = 1 then .num 0
  else JSNum.jsDiv (.num (sumSqDevQ l)) (.num ((l.length : ℚ) - 1))

/-- Result of `calculateStats`. The source stores
`stdDev = math.std(arr) = sqrt(variance)`; we carry the exact radicand
`stdDevSq` (the unbiased variance) and apply `Real.sqrt` at statement
level where the standard deviation itself is claimed. -/
structure StatsQ where
  mean : JSNum ℚ
  stdDevSq : JSNum ℚ
  n : ℕ
deriving DecidableEq, Repr

/-- `calculateStats`: `{mean: 0, stdDev: 0, n: 0}` for a missing or
empty sample, else mathjs mean and standard deviation. -/
def calculateStats (l : List ℚ) : StatsQ :=
  if l.length = 0 then ⟨.num 0, .num 0, 0⟩
  else ⟨.num (mathMeanQ l), varUnbQ l, l.length⟩

/-- Modelled from the spec: the population variance ("stdDev: float
(population, divisor = n)"), for comparison with the source's
`math.std` (claim C1). -/
def popVarSpec (l : List ℚ) : ℚ := sumSqDevQ l / l.length

/-- `calculateCI`: `[0,0]` for `n ≤ 1`, else
`mean ± 1.96 * stdDev / sqrt(n)`. -/
noncomputable def calculateCI (mean stdDev : ℝ) (n : ℕ) : ℝ × ℝ :=
  if n ≤ 1 then (0, 0)
  else
    let marginOfError := 1.96 * (stdDev / Real.sqrt n)
    (mean - marginOfError, mean + marginOfError)

/-! ## Pairwise comparator (`tTest`, `cohenD`, `interpretCohenD`,
lines 217-267), over `ℝ` because of `Math.sqrt` -/

/-- `Math.sqrt` on a JS number (`NaN` for negative arguments). -/
noncomputable def jsSqrt : JSNum ℝ → JSNum ℝ
  | .num r => if r < 0 then .nan else .num (Real.sqrt r)
  | .nan => .nan
  | .inf => .inf
  | .negInf => .nan

/-- `math.mean` of a non-empty real sample. -/
noncomputable def meanR (l : List ℝ) : ℝ := l.sum / l.length

/-- Sum of squared deviations from the mean. -/
noncomputable def sumSqDevR (l : List ℝ) : ℝ :=
  (l.map (fun x => (x - meanR l) ^ 2)).sum

/-- `math.variance` (normalization `unbiased`) as a JS number: 0 for a
one-element array (mathjs special-cases `num === 1`), else the sum of
squared deviations divided by `n - 1`.  Only applied to non-empty
samples (callers guard the empty array, on which mathjs would
throw). -/
noncomputable def mathVarR (l : List ℝ) : JSNum ℝ :=
  if l.length = 1 then .num 0
  else JSNum.jsDiv (.num (sumSqDevR l)) (.num ((l.length : ℝ) - 1))

/-- `math.std = sqrt(variance)`. -/
noncomputable def mathStdR (l : List ℝ) : JSNum ℝ := jsSqrt (mathVarR l)

/-- The p-value bucket computed from the t-statistic:
```js
if (Math.abs(t) > 2.7) pValue = "< 0.01";
else if (Math.abs(t) > 2.0) pValue = "< 0.05";
else pValue = "> 0.05";
``` -/
def pValueBucket {α : Type} [LinearOrderedField α] (t : JSNum α) : String :=
  if JSNum.jsGt (JSNum.jsAbs t) (.num 2.7) then "< 0.01"
  else if JSNum.jsGt (JSNum.jsAbs t) (.num 2) then "< 0.05"
  else "> 0.05"

/-- Result of `tTest`. -/
structure TRes where
  t : JSNum ℝ
  pValue : String

/-- `tTest`: `{t: 0, pValue: "> 0.05"}` if either sample is empty, else
`t = (mean1 - mean2) / sqrt(var1/n1 + var2/n2)` and the p-value bucket
of `|t|`. -/
noncomputable def tTest (arr1 arr2 : List ℝ) : TRes :=
  if arr1.length = 0 ∨ arr2.length = 0 then ⟨.num 0, "> 0.05"⟩
  else
    let t := JSNum.jsDiv (.num (meanR arr1 - meanR arr2))
      (jsSqrt (JSNum.jsAdd
        (JSNum.jsDiv (mathVarR arr1) (.num (arr1.length : ℝ)))
        (JSNum.jsDiv (mathVarR arr2) (.num (arr2.length : ℝ)))))
    ⟨t, pValueBucket t⟩

/-- `cohenD`: `0` if either sample is empty, else
`|mean1 - mean2| / pooledSD` with
`pooledSD = sqrt(((n1-1)*s1*s1 + (n2-1)*s2*s2) / (n1+n2-2))`. -/
noncomputable def cohenD (arr1 arr2 : List ℝ) : JSNum ℝ :=
  if arr1.length = 0 ∨ arr2.length = 0 then .num 0
  else
    let s1 := mathStdR arr1
    let s2 := mathStdR arr2
    let pooledSD := jsSqrt (JSNum.jsDiv
      (JSNum.jsAdd
        (JSNum.jsMul (JSNum.jsMul (.num ((arr1.length : ℝ) - 1)) s1) s1)
        (JSNum.jsMul (JSNum.jsMul (.num ((arr2.length : ℝ) - 1)) s2) s2))
      (.num ((arr1.length : ℝ) + (arr2.length : ℝ) - 2)))
    JSNum.jsDiv (.num |meanR arr1 - meanR arr2|) pooledSD

/-- `interpretCohenD`:
```js
if (d < 0.2) return "Negligible";
if (d < 0.5) return "Small";
if (d < 0.8) return "Medium";
return "Large";
``` -/
noncomputable def interpretCohenD (d : JSNum ℝ) : String :=
  if JSNum.jsLt d (.num 0.2) then "Negligible"
  else if JSNum.jsLt d (.num 0.5) then "Small"
  else if JSNum.jsLt d (.num 0.8) then "Medium"
  else "Large"

/-! ## Concrete rows used by counterexamples and witnesses -/

/-- A row with every field missing. -/
def emptyRow : Row := fun _ => Val.null

/-- A row whose six 5-point Rectangle sub-metrics are all 5 and whose
Rectangle attempts cell is `a`; every other field missing. -/
def allFivesAttempts (a : ℚ) : Row := fun f =>
  if f = "Number of Attempts" then .num a
  else if f ∈ ["Positioning Accuracy", "Comfort", "Grip Security",
               "Ease of Use", "Intuitiveness ", "Overall Satisfaction"] then .num 5
  else .null

/-- A row with identical all-fives Rectangle and Curved sub-metrics and
no Circle data. -/
def mirrorFivesRow : Row := fun f =>
  if f ∈ ["Positioning Accuracy", "Comfort", "Grip Security",
          "Ease of Use", "Intuitiveness ", "Overall Satisfaction",
          "Positioning Accuracy_1", "Comfort_1", "Grip Security_1",
          "Ease of Use_1", "Intuitiveness _1", "Overall Satisfaction_1"] then .num 5
  else .null

/-- A row carrying only a demographic factor value. -/
def ageOnlyRow : Row := fun f => if f = "Age Range" then .str "18-24" else .null

/-- A row carrying only one Circle sub-metric. -/
def circleOnlyRow : Row := fun f => if f = "Comfort_2" then .num 5 else .null

/-- A row whose Rectangle attempts cell is the annotated string
"3 tries". -/
def attemptNoteRow : Row := fun f =>
  if f = "Number of Attempts" then .str "3 tries" else .null

/-- The aggregate-scores record produced for `[circleOnlyRow]`. -/
def circleOnlyAgg : AggScores :=
  { averageRectangle := .num 0
    averageCurved := .num 0
    averageCircle := .num (3/4)
    topRectangle := 0
    topCurved := 0
    topCircle := 1
    detail := [⟨.str "Unknown", .num 0, .num 0, .num (3/4), "Circle Undergrip Handle"⟩] }

/-! ## Basic lemmas about the JS number model -/

namespace JSNum

variable {α : Type} [LinearOrderedField α]

@[simp] theorem jsAdd_num_num (a b : α) : jsAdd (num a) (num b) = num (a + b) := rfl

@[simp] theorem jsAdd_nan_left (b : JSNum α) : jsAdd nan b = nan := by
  cases b <;> rfl

@[simp] theorem jsAdd_nan_right (a : JSNum α) : jsAdd a nan = nan := by
  cases a <;> rfl

@[simp] theorem jsNeg_num (a : α) : jsNeg (num a) = num (-a) := rfl

@[simp] theorem jsSub_num_num (a b : α) : jsSub (num a) (num b) = num (a - b) := by
  simp [jsSub, sub_eq_add_neg]

@[simp] theorem jsMul_num_num (a b : α) : jsMul (num a) (num b) = num (a * b) := rfl

@[simp] theorem jsMul_nan_left (b : JSNum α) : jsMul nan b = nan := by
  cases b <;> rfl

@[simp] theorem jsMul_nan_right (a : JSNum α) : jsMul a nan = nan := by
  cases a <;> rfl

@[simp] theorem jsDiv_nan_left (b : JSNum α) : jsDiv nan b = nan := by
  cases b <;> rfl

@[simp] theorem jsDiv_nan_right (a : JSNum α) : jsDiv a nan = nan := by
  cases a <;> rfl

@[simp] theorem jsAbs_num (a : α) : jsAbs (num a) = num |a| := rfl

@[simp] theorem jsMax_num_num (a b : α) : jsMax (num a) (num b) = num (max a b) := rfl

@[simp] theorem jsStrictEq_num_num (a b : α) :
    jsStrictEq (num a) (num b) = decide (a = b) := by
  simp [jsStrictEq]

@[simp] theorem jsGt_num_num (a b : α) : jsGt (num a) (num b) = decide (b < a) := by
  simp [jsGt]

@[simp] theorem jsLt_num_num (a b : α) : jsLt (num a) (num b) = decide (a < b) := by
  simp [jsLt]

theorem jsDiv_num_num_of_ne {a b : α} (hb : b ≠ 0) :
    jsDiv (num a) (num b) = num (a / b) := by
  simp [jsDiv, hb]

theorem jsDiv_num_zero_pos {a : α} (ha : 0 < a) :
    jsDiv (num a) (num 0) = inf := by
  simp [jsDiv, ha, ha.ne.symm]

@[simp] theorem jsDiv_zero_zero : jsDiv (num (0 : α)) (num 0) = nan := by
  simp [jsDiv]

end JSNum

/-! ## Claim C3 — aggregate score of an all-fives row with attempts = 0 -/

/-- Evaluation of the Rectangle score on the all-fives row with a
falsy (zero) attempts cell. -/
theorem rectangleScore_allFives_zero :
    rectangleScore (allFivesAttempts 0) = JSNum.num (35/8 : ℚ) := by
  have hatt : allFivesAttempts 0 "Number of Attempts" = Val.num 0 := rfl
  have hacc : allFivesAttempts 0 "Positioning Accuracy" = Val.num 5 := rfl
  have hcom : allFivesAttempts 0 "Comfort" = Val.num 5 := rfl
  have hgrip : allFivesAttempts 0 "Grip Security" = Val.num 5 := rfl
  have hease : allFivesAttempts 0 "Ease of Use" = Val.num 5 := rfl
  have hint : allFivesAttempts 0 "Intuitiveness " = Val.num 5 := rfl
  have hsat : allFivesAttempts 0 "Overall Satisfaction" = Val.num 5 := rfl
  simp only [rectangleScore, handleScore, hatt, hacc, hcom, hgrip, hease, hint, hsat]
  simp only [Val.truthy, Val.toNumber, orZero]
  norm_num
  rw [JSNum.jsDiv_num_num_of_ne (by norm_num : (8:ℚ) ≠ 0)]

/-- Evaluation of the Rectangle score on the all-fives row with a
truthy attempts cell. -/
theorem rectangleScore_allFives_truthy (a : ℚ) (ha : a ≠ 0) :
    rectangleScore (allFivesAttempts a) = JSNum.num ((40 - a) / 8) := by
  have hatt : allFivesAttempts a "Number of Attempts" = Val.num a := rfl
  have hacc : allFivesAttempts a "Positioning Accuracy" = Val.num 5 := rfl
  have hcom : allFivesAttempts a "Comfort" = Val.num 5 := rfl
  have hgrip : allFivesAttempts a "Grip Security" = Val.num 5 := rfl
  have hease : allFivesAttempts a "Ease of Use" = Val.num 5 := rfl
  have hint : allFivesAttempts a "Intuitiveness " = Val.num 5 := rfl
  have hsat : allFivesAttempts a "Overall Satisfaction" = Val.num 5 := rfl
  simp only [rectangleScore, handleScore, hatt, hacc, hcom, hgrip, hease, hint, hsat]
  simp only [Val.truthy, Val.toNumber, orZero, ha, ne_eq, not_false_eq_true]
  norm_num
  rw [JSNum.jsDiv_num_num_of_ne (by norm_num : (8:ℚ) ≠ 0)]
  congr 1
  ring

/-- Claim C3 is false on the code: for the row with all 5-point
sub-metrics equal to 5 and attempts equal to 0, the Rectangle aggregate
score is 35/8 = 4.375, not the claimed 5.0 — `row['Number of Attempts']`
is `0`, which is falsy, so the ternary guard treats it as absent and
contributes 0 instead of the claimed inverted `5 - 0 = 5`. -/
theorem attempts_zero_score_claim_false :
    rectangleScore (allFivesAttempts 0) = JSNum.num (35/8 : ℚ) ∧ (35/8 : ℚ) ≠ 5 :=
  ⟨rectangleScore_allFives_zero, by norm_num⟩

/-- Claim C3 (amended): attempts = 0 is falsy, hence treated as absent;
the score of the all-fives row with attempts 0 is
`(1.5*5 + 1.0*0 + 1.2*5 + 1.0*5 + 1.0*5 + 0.8*5 + 1.5*5)/8 = 4.375`,
and for any truthy (non-zero) attempts value `a` the score is
`(40 - a)/8`. -/
theorem attempts_zero_treated_absent :
    rectangleScore (allFivesAttempts 0) = JSNum.num (35/8 : ℚ) ∧
    ∀ a : ℚ, a ≠ 0 → rectangleScore (allFivesAttempts a) = JSNum.num ((40 - a) / 8) :=
  ⟨rectangleScore_allFives_zero, fun a ha => rectangleScore_allFives_truthy a ha⟩

/-- Witness for the amended C3 theorem at the truthy attempts value 1:
the score is `(40 - 1)/8`. -/
theorem attempts_zero_treated_absent_witness :
    rectangleScore (allFivesAttempts 1) = JSNum.num ((40 - 1) / 8 : ℚ) :=
  attempts_zero_treated_absent.2 1 (by norm_num)

/-! ## Claim C9 — frame property of the attempt-field cleanup pass -/

/-- Claim C9: the post-parse cleanup pass changes at most the three
attempt fields; any field it changes held a truthy string whose leading
characters are digits, and afterwards holds the integer parsed from
that leading digit run. -/
theorem attempt_cleanup_frame :
    (∀ (row : Row) (f : String), f ∉ attemptFields → cleanRow row f = row f) ∧
    (∀ (row : Row) (f : String), cleanRow row f ≠ row f →
      ∃ s : String, row f = Val.str s ∧ (leadingDigits s).isEmpty = false ∧
        cleanRow row f = Val.num (digitsToNat (leadingDigits s))) := by
  constructor
  · intro row f hf
    simp [cleanRow, hf]
  · intro row f hne
    by_cases hf : f ∈ attemptFields
    · simp only [cleanRow, if_pos hf] at hne ⊢
      cases hv : row f with
      | str s =>
        rw [hv] at hne
        by_cases hs : s = ""
        · subst hs; simp [cleanVal] at hne
        · by_cases hd : (leadingDigits s).isEmpty
          · simp [cleanVal, hs, hd] at hne
          · exact ⟨s, rfl, by simpa using hd, by simp [cleanVal, hs, hd]⟩
      | num q => rw [hv] at hne; simp [cleanVal] at hne
      | bool b => rw [hv] at hne; simp [cleanVal] at hne
      | null => rw [hv] at hne; simp [cleanVal] at hne
    · simp [cleanRow, hf] at hne

/-- Witness for C9: a non-attempt field is untouched, and an attempt
field holding the string "3 tries" becomes the number 3. -/
theorem attempt_cleanup_frame_witness :
    cleanRow attemptNoteRow "Comfort" = attemptNoteRow "Comfort" ∧
    ∃ s : String, attemptNoteRow "Number of Attempts" = Val.str s ∧
      (leadingDigits s).isEmpty = false ∧
      cleanRow attemptNoteRow "Number of Attempts" =
        Val.num (digitsToNat (leadingDigits s)) :=
  ⟨attempt_cleanup_frame.1 attemptNoteRow "Comfort" (by decide),
   attempt_cleanup_frame.2 attemptNoteRow "Number of Attempts" (by decide)⟩

/-! ## Claims C5 and C10 — top-choice selection -/

/-- A handle whose seven referenced cells are all missing scores 0. -/
theorem handleScore_all_null (row : Row) (f1 f2 f3 f4 f5 f6 f7 : String)
    (h1 : row f1 = Val.null) (h2 : row f2 = Val.null) (h3 : row f3 = Val.null)
    (h4 : row f4 = Val.null) (h5 : row f5 = Val.null) (h6 : row f6 = Val.null)
    (h7 : row f7 = Val.null) :
    handleScore row f1 f2 f3 f4 f5 f6 f7 = JSNum.num 0 := by
  simp only [handleScore, h1, h2, h3, h4, h5, h6, h7]
  simp only [Val.truthy, Val.toNumber, orZero]
  norm_num
  rw [JSNum.jsDiv_num_num_of_ne (by norm_num : (8:ℚ) ≠ 0)]
  norm_num

/-- Rectangle score of the mirrored all-fives row. -/
theorem rectangleScore_mirrorFives :
    rectangleScore mirrorFivesRow = JSNum.num (35/8 : ℚ) := by
  have h1 : mirrorFivesRow "Positioning Accuracy" = Val.num 5 := rfl
  have h2 : mirrorFivesRow "Number of Attempts" = Val.null := rfl
  have h3 : mirrorFivesRow "Comfort" = Val.num 5 := rfl
  have h4 : mirrorFivesRow "Grip Security" = Val.num 5 := rfl
  have h5 : mirrorFivesRow "Ease of Use" = Val.num 5 := rfl
  have h6 : mirrorFivesRow "Intuitiveness " = Val.num 5 := rfl
  have h7 : mirrorFivesRow "Overall Satisfaction" = Val.num 5 := rfl
  simp only [rectangleScore, handleScore, h1, h2, h3, h4, h5, h6, h7]
  simp only [Val.truthy, Val.toNumber, orZero]
  norm_num
  rw [JSNum.jsDiv_num_num_of_ne (by norm_num : (8:ℚ) ≠ 0)]

/-- Curved score of the mirrored all-fives row. -/
theorem curvedScore_mirrorFives :
    curvedScore mirrorFivesRow = JSNum.num (35/8 : ℚ) := by
  have h1 : mirrorFivesRow "Positioning Accuracy_1" = Val.num 5 := rfl
  have h2 : mirrorFivesRow "Number of Attempts_1" = Val.null := rfl
  have h3 : mirrorFivesRow "Comfort_1" = Val.num 5 := rfl
  have h4 : mirrorFivesRow "Grip Security_1" = Val.num 5 := rfl
  have h5 : mirrorFivesRow "Ease of Use_1" = Val.num 5 := rfl
  have h6 : mirrorFivesRow "Intuitiveness _1" = Val.num 5 := rfl
  have h7 : mirrorFivesRow "Overall Satisfaction_1" = Val.num 5 := rfl
  simp only [curvedScore, handleScore, h1, h2, h3, h4, h5, h6, h7]
  simp only [Val.truthy, Val.toNumber, orZero]
  norm_num
  rw [JSNum.jsDiv_num_num_of_ne (by norm_num : (8:ℚ) ≠ 0)]

/-- Circle score of the mirrored all-fives row (no Circle data). -/
theorem circleScore_mirrorFives : circleScore mirrorFivesRow = JSNum.num 0 :=
  handleScore_all_null mirrorFivesRow _ _ _ _ _ _ _ rfl rfl rfl rfl rfl rfl rfl

/-- With equal first and second scores, a strictly smaller third score
selects the first branch of the top-choice ternary chain. -/
theorem topChoice3_tie (r ci : JSNum ℚ) (h : JSNum.jsGt r ci = true) :
    topChoice3 r r ci = "Rectangle Handle" := by
  cases r with
  | num a =>
    cases ci with
    | num b =>
      have hb : b < a := by simpa using h
      simp [topChoice3, JSNum.jsMax, max_eq_left hb.le]
    | nan => simp [JSNum.jsGt] at h
    | inf => simp [JSNum.jsGt] at h
    | negInf => simp [topChoice3, JSNum.jsMax, JSNum.jsStrictEq]
  | nan => simp [JSNum.jsGt] at h
  | inf =>
    cases ci with
    | num b => simp [topChoice3, JSNum.jsMax, JSNum.jsStrictEq]
    | nan => simp [JSNum.jsGt] at h
    | inf => simp [JSNum.jsGt] at h
    | negInf => simp [topChoice3, JSNum.jsMax, JSNum.jsStrictEq]
  | negInf => cases ci <;> simp [JSNum.jsGt] at h

/-- Claim C5: for every row whose Rectangle and Curved aggregate scores
are equal and strictly greater than its Circle score, `topChoice` is
"Rectangle Handle" (ties resolve by the first-match priority of the
comparison chain). -/
theorem topChoice_tie_rectangle :
    ∀ row : Row, rectangleScore row = curvedScore row →
      JSNum.jsGt (rectangleScore row) (circleScore row) = true →
      (scoreRow row).topChoice = "Rectangle Handle" := by
  intro row heq hgt
  have hsr : (scoreRow row).topChoice
      = topChoice3 (rectangleScore row) (curvedScore row) (circleScore row) := rfl
  rw [hsr, ← heq]
  exact topChoice3_tie _ _ hgt

/-- Witness for C5: on the mirrored all-fives row (Rectangle = Curved =
35/8 > Circle = 0) the top choice is "Rectangle Handle". -/
theorem topChoice_tie_rectangle_witness :
    (scoreRow mirrorFivesRow).topChoice = "Rectangle Handle" :=
  topChoice_tie_rectangle mirrorFivesRow
    (by rw [rectangleScore_mirrorFives, curvedScore_mirrorFives])
    (by rw [rectangleScore_mirrorFives, circleScore_mirrorFives]; simp)

/-- The ternary chain always returns one of the three handle names. -/
theorem topChoice3_mem (r c ci : JSNum ℚ) :
    topChoice3 r c ci = "Rectangle Handle" ∨ topChoice3 r c ci = "Curved Handle" ∨
      topChoice3 r c ci = "Circle Undergrip Handle" := by
  unfold topChoice3
  split_ifs <;> simp

/-- The three top-choice filters partition any list of score records
whose `topChoice` is one of the three handle names. -/
theorem filter_three_length (l : List ScoreRec)
    (h : ∀ s ∈ l, s.topChoice = "Rectangle Handle" ∨ s.topChoice = "Curved Handle" ∨
      s.topChoice = "Circle Undergrip Handle") :
    (l.filter fun s => s.topChoice == "Rectangle Handle").length +
      (l.filter fun s => s.topChoice == "Curved Handle").length +
      (l.filter fun s => s.topChoice == "Circle Undergrip Handle").length = l.length := by
  induction l with
  | nil => simp
  | cons x xs ih =>
    have hx := h x (List.mem_cons_self x xs)
    have ih2 := ih fun s hs => h s (List.mem_cons_of_mem x hs)
    rcases hx with h1 | h1 | h1 <;>
      simp [List.filter_cons, h1, List.length_cons] <;> omega

/-- Splitting a successful `Except` bind. -/
theorem bind_eq_ok {α β : Type} {x : Except String α} {f : α → Except String β}
    {b : β} (h : x >>= f = Except.ok b) : ∃ a, x = Except.ok a ∧ f a = Except.ok b := by
  cases x with
  | error e => simp [Bind.bind, Except.bind] at h
  | ok a => exact ⟨a, rfl, by simpa [Bind.bind, Except.bind] using h⟩

/-- Splitting a successful `Except` map. -/
theorem map_eq_ok {α β : Type} {x : Except String α} {f : α → β}
    {b : β} (h : f <$> x = Except.ok b) : ∃ a, x = Except.ok a ∧ f a = b := by
  cases x with
  | error e => simp [Functor.map, Except.map] at h
  | ok a => exact ⟨a, rfl, by simpa [Functor.map, Except.map] using h⟩

/-- Claim C10: every row is assigned exactly one of the three handle
names as its top choice, and whenever the aggregate scorer returns a
result, the three top-choice counts sum to the number of input rows. -/
theorem topChoice_total_partition :
    (∀ row : Row, (scoreRow row).topChoice = "Rectangle Handle" ∨
      (scoreRow row).topChoice = "Curved Handle" ∨
      (scoreRow row).topChoice = "Circle Undergrip Handle") ∧
    (∀ (data : List Row) (out : AggScores),
      calculateAggregateScores data = Except.ok out →
      out.topRectangle + out.topCurved + out.topCircle = data.length) := by
  constructor
  · intro row
    exact topChoice3_mem _ _ _
  · intro data out h
    simp only [calculateAggregateScores] at h
    obtain ⟨v1, hA, h⟩ := bind_eq_ok h
    obtain ⟨v2, hB, h⟩ := bind_eq_ok h
    obtain ⟨v3, hC, h⟩ := bind_eq_ok h
    simp only [pure, Except.pure, Except.ok.injEq] at h
    have hmem : ∀ s ∈ data.map scoreRow,
        s.topChoice = "Rectangle Handle" ∨ s.topChoice = "Curved Handle" ∨
          s.topChoice = "Circle Undergrip Handle" := by
      intro s hs
      obtain ⟨row, _, rfl⟩ := List.mem_map.1 hs
      exact topChoice3_mem _ _ _
    rw [← h]
    simpa using filter_three_length (data.map scoreRow) hmem

/-- Mean of a one-element JS-number array. -/
theorem jsMeanExc_single (x : ℚ) :
    jsMeanExc [JSNum.num x] = Except.ok (JSNum.num x) := by
  simp only [jsMeanExc, List.isEmpty_cons, List.foldl, List.length_cons,
    List.length_nil, JSNum.jsAdd_num_num]
  rw [JSNum.jsDiv_num_num_of_ne (by norm_num : ((0 + 1 : ℕ) : ℚ) ≠ 0)]
  norm_num

/-- Circle score of the row carrying only `Comfort_2 = 5`. -/
theorem circleScore_circleOnly :
    circleScore circleOnlyRow = JSNum.num (3/4 : ℚ) := by
  have h1 : circleOnlyRow "Positioning Accuracy_2" = Val.null := rfl
  have h2 : circleOnlyRow "Number of Attempts_2" = Val.null := rfl
  have h3 : circleOnlyRow "Comfort_2" = Val.num 5 := rfl
  have h4 : circleOnlyRow "Grip Security_2" = Val.null := rfl
  have h5 : circleOnlyRow "Ease of Use_2" = Val.null := rfl
  have h6 : circleOnlyRow "Intuitiveness _2" = Val.null := rfl
  have h7 : circleOnlyRow "Overall Satisfaction_2" = Val.null := rfl
  simp only [circleScore, handleScore, h1, h2, h3, h4, h5, h6, h7]
  simp only [Val.truthy, Val.toNumber, orZero]
  norm_num
  rw [JSNum.jsDiv_num_num_of_ne (by norm_num : (8:ℚ) ≠ 0)]
  norm_num

/-- The score record of the Circle-only row. -/
theorem scoreRow_circleOnly :
    scoreRow circleOnlyRow =
      ⟨Val.str "Unknown", JSNum.num 0, JSNum.num 0, JSNum.num (3/4 : ℚ),
        "Circle Undergrip Handle"⟩ := by
  have hpid : circleOnlyRow "  Please enter your assigned participant ID:" = Val.null := rfl
  have hr : rectangleScore circleOnlyRow = JSNum.num 0 :=
    handleScore_all_null circleOnlyRow _ _ _ _ _ _ _ rfl rfl rfl rfl rfl rfl rfl
  have hc : curvedScore circleOnlyRow = JSNum.num 0 :=
    handleScore_all_null circleOnlyRow _ _ _ _ _ _ _ rfl rfl rfl rfl rfl rfl rfl
  simp only [scoreRow, hr, hc, circleScore_circleOnly, hpid, Val.truthy]
  norm_num [topChoice3, JSNum.jsMax, JSNum.jsStrictEq]

/-- Evaluation of the aggregate scorer on the Circle-only dataset. -/
theorem calcAgg_circleOnly :
    calculateAggregateScores [circleOnlyRow] = Except.ok circleOnlyAgg := by
  simp only [calculateAggregateScores, List.map_cons, List.map_nil, scoreRow_circleOnly]
  rw [show (List.filter JSNum.jsTruthy [JSNum.num (3/4 : ℚ)]) = [JSNum.num (3/4 : ℚ)] by
    simp [JSNum.jsTruthy]]
  rw [jsMeanExc_single, jsMeanExc_single]
  simp only [Bind.bind, Except.bind, pure, Except.pure, circleOnlyAgg]
  simp [List.filter]

/-- Witness for C10 on the one-row Circle-only dataset: the counts sum
to 1. -/
theorem topChoice_total_partition_witness :
    circleOnlyAgg.topRectangle + circleOnlyAgg.topCurved + circleOnlyAgg.topCircle = 1 :=
  topChoice_total_partition.2 [circleOnlyRow] circleOnlyAgg calcAgg_circleOnly

/-! ## Claim C1 — the standard-deviation formula of `calculateStats` -/

/-- Evaluation of `calculateStats` on the sample `[4, 5, 3]`:
mean 4, variance (unbiased, divisor n−1) equal to 1, n = 3. -/
theorem calculateStats_453 :
    calculateStats [4, 5, 3] = ⟨JSNum.num 4, JSNum.num 1, 3⟩ := by
  have hm : mathMeanQ [4, 5, 3] = 4 := by
    simp [mathMeanQ]
    norm_num
  have hs : sumSqDevQ [4, 5, 3] = 2 := by
    simp [sumSqDevQ, hm]
    norm_num
  simp only [calculateStats, varUnbQ, hs, hm]
  norm_num
  rw [JSNum.jsDiv_num_num_of_ne (by norm_num : (2:ℚ) ≠ 0)]
  norm_num

/-- Claim C1 is false on the code: `math.std` defaults to the sample
(divisor n−1) normalization, so for `[4, 5, 3]` `calculateStats`
returns stdDev = √1 = 1.0, while the population formula the claim
asserts gives variance 2/3, whose square root (≈ 0.816) is not 1. -/
theorem stdDev_population_claim_false :
    (calculateStats [4, 5, 3]).stdDevSq = JSNum.num 1 ∧
    popVarSpec [4, 5, 3] = 2/3 ∧
    Real.sqrt 1 = 1 ∧ Real.sqrt (2/3) ≠ 1 := by
  refine ⟨by rw [calculateStats_453], ?_, Real.sqrt_one, ?_⟩
  · have hm : mathMeanQ [4, 5, 3] = 4 := by
      simp [mathMeanQ]
      norm_num
    simp [popVarSpec, sumSqDevQ, hm]
    norm_num
  · have h : Real.sqrt (2/3) < 1 := by
      have h1 : Real.sqrt (2/3) < Real.sqrt 1 := Real.sqrt_lt_sqrt (by norm_num) (by norm_num)
      simpa using h1
    exact ne_of_lt h

/-- Claim C1 (amended): for every sample with n ≥ 2, `calculateStats`
returns the stdDev of the sample formula (divisor n−1, the mathjs
default), related to the spec's population variance by
`stdDev² · (n−1) = popVar · n`; in particular for `[4, 5, 3]` it
returns stdDev = 1.0 (not 0.816) and mean = 4. -/
theorem stdDev_sample_formula :
    (∀ l : List ℚ, 2 ≤ l.length →
      ∃ q : ℚ, (calculateStats l).stdDevSq = JSNum.num q ∧
        q * ((l.length : ℚ) - 1) = popVarSpec l * (l.length : ℚ)) ∧
    (calculateStats [4, 5, 3]).stdDevSq = JSNum.num 1 ∧
    (calculateStats [4, 5, 3]).mean = JSNum.num 4 := by
  refine ⟨?_, by rw [calculateStats_453], by rw [calculateStats_453]⟩
  intro l hl
  have hn0 : l.length ≠ 0 := by omega
  have h2 : (2:ℚ) ≤ (l.length : ℚ) := by exact_mod_cast hl
  have hne : ((l.length : ℚ) - 1) ≠ 0 := by linarith
  have hcast : (l.length : ℚ) ≠ 0 := by
    exact_mod_cast hn0
  have hn1 : l.length ≠ 1 := by omega
  refine ⟨sumSqDevQ l / ((l.length : ℚ) - 1), ?_, ?_⟩
  · simp only [calculateStats, if_neg hn0, varUnbQ, if_neg hn1]
    exact JSNum.jsDiv_num_num_of_ne hne
  · rw [popVarSpec, div_mul_cancel₀ _ hne, div_mul_cancel₀ _ hcast]

/-- Witness for the amended C1 theorem at the sample `[4, 5, 3]`. -/
theorem stdDev_sample_formula_witness :
    ∃ q : ℚ, (calculateStats [4, 5, 3]).stdDevSq = JSNum.num q ∧
      q * ((([4, 5, 3] : List ℚ).length : ℚ) - 1) =
        popVarSpec [4, 5, 3] * (([4, 5, 3] : List ℚ).length : ℚ) :=
  stdDev_sample_formula.1 [4, 5, 3] (by decide)

/-! ## Claim C8 — degenerate descriptive statistics are clamped -/

/-- Claim C8: an empty sample yields `{mean: 0, stdDev: 0, n: 0}`, and
whenever n ≤ 1 the confidence interval is clamped to `[0, 0]`. -/
theorem empty_stats_and_ci_clamp :
    calculateStats ([] : List ℚ) = ⟨JSNum.num 0, JSNum.num 0, 0⟩ ∧
    ∀ (m sd : ℝ) (n : ℕ), n ≤ 1 → calculateCI m sd n = (0, 0) := by
  refine ⟨rfl, ?_⟩
  intro m sd n hn
  simp [calculateCI, hn]

/-- Witness for C8 at n = 1 (a one-element sample's CI is `[0, 0]`). -/
theorem empty_stats_and_ci_clamp_witness : calculateCI 2 3 1 = (0, 0) :=
  empty_stats_and_ci_clamp.2 2 3 1 (by norm_num)

/-! ## Claim C2 — the pipeline is not exception-free -/

/-- Scores of the all-missing row are all `num 0` and its top choice is
"Rectangle Handle". -/
theorem scoreRow_emptyRow :
    scoreRow emptyRow = ⟨Val.str "Unknown", JSNum.num 0, JSNum.num 0, JSNum.num 0,
      "Rectangle Handle"⟩ := by
  have hr : rectangleScore emptyRow = JSNum.num 0 :=
    handleScore_all_null emptyRow _ _ _ _ _ _ _ rfl rfl rfl rfl rfl rfl rfl
  have hc : curvedScore emptyRow = JSNum.num 0 :=
    handleScore_all_null emptyRow _ _ _ _ _ _ _ rfl rfl rfl rfl rfl rfl rfl
  have hci : circleScore emptyRow = JSNum.num 0 :=
    handleScore_all_null emptyRow _ _ _ _ _ _ _ rfl rfl rfl rfl rfl rfl rfl
  have hpid : emptyRow "  Please enter your assigned participant ID:" = Val.null := rfl
  simp only [scoreRow, hr, hc, hci, hpid, Val.truthy]
  norm_num [topChoice3, JSNum.jsMax, JSNum.jsStrictEq]

/-- Claim C2 is violated by the code: on the empty dataset the
aggregate scorer calls `math.mean` on an empty array and throws; on a
dataset whose single row has every field missing, the Circle average's
`.filter(Boolean)` drops the zero score and `math.mean([])` throws; and
the demographic tabulator throws likewise when a group has no truthy
rank values. -/
theorem pipeline_throws_on_degenerate_input :
    runAnalysis [] = Except.error meanEmptyErr ∧
    runAnalysis [emptyRow] = Except.error meanEmptyErr ∧
    calculateDemographicBreakdown [ageOnlyRow] = Except.error meanEmptyErr := by
  refine ⟨rfl, ?_, rfl⟩
  have hfilter : List.filter JSNum.jsTruthy [JSNum.num (0:ℚ)] = [] := by
    simp [JSNum.jsTruthy]
  simp only [runAnalysis, calculateAggregateScores, List.map_cons, List.map_nil,
    scoreRow_emptyRow, hfilter, jsMeanExc_single]
  rfl

/-! ## Claim C6 — the p-value bucket step function -/

/-- The bucket of a finite t-statistic as a propositional step
function. -/
theorem pValueBucket_num (t : ℝ) :
    pValueBucket (JSNum.num t) =
      if 2.7 < |t| then "< 0.01" else if 2 < |t| then "< 0.05" else "> 0.05" := by
  simp [pValueBucket]

/-- Claim C6: the p-value bucket returned by the t-test is a
deterministic step function of |t| with strictly exclusive thresholds:
|t| > 2.7 → "< 0.01", 2.0 < |t| ≤ 2.7 → "< 0.05", |t| ≤ 2.0
(including exactly 2.0) → "> 0.05"; in particular 2.71 → "< 0.01",
2.0 → "> 0.05", 1.9 → "> 0.05". -/
theorem pValue_bucket_step :
    (∀ arr1 arr2 : List ℝ, (tTest arr1 arr2).pValue = pValueBucket (tTest arr1 arr2).t) ∧
    (∀ t : ℝ,
      ((2.7 : ℝ) < |t| → pValueBucket (JSNum.num t) = "< 0.01") ∧
      ((2 : ℝ) < |t| → |t| ≤ 2.7 → pValueBucket (JSNum.num t) = "< 0.05") ∧
      (|t| ≤ 2 → pValueBucket (JSNum.num t) = "> 0.05")) ∧
    pValueBucket (JSNum.num (2.71 : ℝ)) = "< 0.01" ∧
    pValueBucket (JSNum.num (2 : ℝ)) = "> 0.05" ∧
    pValueBucket (JSNum.num (1.9 : ℝ)) = "> 0.05" := by
  refine ⟨?_, ?_, ?_, ?_, ?_⟩
  · intro arr1 arr2
    unfold tTest
    split
    · rw [pValueBucket_num]
      norm_num
    · rfl
  · intro t
    refine ⟨fun h => ?_, fun h1 h2 => ?_, fun h => ?_⟩
    · rw [pValueBucket_num, if_pos h]
    · rw [pValueBucket_num, if_neg (not_lt.2 h2), if_pos h1]
    · rw [pValueBucket_num, if_neg (not_lt.2 (by linarith)), if_neg (not_lt.2 h)]
  · rw [pValueBucket_num, if_pos (by rw [abs_of_pos] <;> norm_num)]
  · rw [pValueBucket_num, if_neg (by rw [abs_of_pos] <;> norm_num),
      if_neg (by rw [abs_of_pos] <;> norm_num)]
  · rw [pValueBucket_num, if_neg (by rw [abs_of_pos] <;> norm_num),
      if_neg (by rw [abs_of_pos] <;> norm_num)]

/-- Witness for C6, one t value in each bucket band. -/
theorem pValue_bucket_step_witness :
    pValueBucket (JSNum.num (3 : ℝ)) = "< 0.01" ∧
    pValueBucket (JSNum.num (2.5 : ℝ)) = "< 0.05" ∧
    pValueBucket (JSNum.num (1 : ℝ)) = "> 0.05" :=
  ⟨(pValue_bucket_step.2.1 3).1 (by rw [abs_of_pos] <;> norm_num),
   (pValue_bucket_step.2.1 2.5).2.1 (by rw [abs_of_pos] <;> norm_num)
     (by rw [abs_of_pos] <;> norm_num),
   (pValue_bucket_step.2.1 1).2.2 (by rw [abs_of_pos] <;> norm_num)⟩

/-! ## Claim C7 — the effect-size label step function -/

/-- The effect-size label of a finite d as a propositional step
function. -/
theorem interpretCohenD_num (d : ℝ) :
    interpretCohenD (JSNum.num d) =
      if d < 0.2 then "Negligible" else if d < 0.5 then "Small"
      else if d < 0.8 then "Medium" else "Large" := by
  simp [interpretCohenD]

/-- Claim C7: the effect-size label is a deterministic step function of
d with left-closed boundaries: d < 0.2 → Negligible, 0.2 ≤ d < 0.5 →
Small, 0.5 ≤ d < 0.8 → Medium, 0.8 ≤ d → Large; in particular 0.19 →
Negligible, 0.2 → Small, 0.49 → Small, 0.5 → Medium, 0.79 → Medium,
0.8 → Large. -/
theorem effect_label_step :
    (∀ d : ℝ,
      (d < 0.2 → interpretCohenD (JSNum.num d) = "Negligible") ∧
      ((0.2:ℝ) ≤ d → d < 0.5 → interpretCohenD (JSNum.num d) = "Small") ∧
      ((0.5:ℝ) ≤ d → d < 0.8 → interpretCohenD (JSNum.num d) = "Medium") ∧
      ((0.8:ℝ) ≤ d → interpretCohenD (JSNum.num d) = "Large")) ∧
    interpretCohenD (JSNum.num (0.19:ℝ)) = "Negligible" ∧
    interpretCohenD (JSNum.num (0.2:ℝ)) = "Small" ∧
    interpretCohenD (JSNum.num (0.49:ℝ)) = "Small" ∧
    interpretCohenD (JSNum.num (0.5:ℝ)) = "Medium" ∧
    interpretCohenD (JSNum.num (0.79:ℝ)) = "Medium" ∧
    interpretCohenD (JSNum.num (0.8:ℝ)) = "Large" := by
  refine ⟨?_, ?_, ?_, ?_, ?_, ?_, ?_⟩
  · intro d
    refine ⟨fun h => ?_, fun h1 h2 => ?_, fun h1 h2 => ?_, fun h => ?_⟩
    · rw [interpretCohenD_num, if_pos h]
    · rw [interpretCohenD_num, if_neg (not_lt.2 h1), if_pos h2]
    · rw [interpretCohenD_num, if_neg (not_lt.2 (by linarith)), if_neg (not_lt.2 h1),
        if_pos h2]
    · rw [interpretCohenD_num, if_neg (not_lt.2 (by linarith)),
        if_neg (not_lt.2 (by linarith)), if_neg (not_lt.2 h)]
  · rw [interpretCohenD_num, if_pos (by norm_num)]
  · rw [interpretCohenD_num, if_neg (by norm_num), if_pos (by norm_num)]
  · rw [interpretCohenD_num, if_neg (by norm_num), if_pos (by norm_num)]
  · rw [interpretCohenD_num, if_neg (by norm_num), if_neg (by norm_num),
      if_pos (by norm_num)]
  · rw [interpretCohenD_num, if_neg (by norm_num), if_neg (by norm_num),
      if_pos (by norm_num)]
  · rw [interpretCohenD_num, if_neg (by norm_num), if_neg (by norm_num),
      if_neg (by norm_num)]

/-- Witness for C7, one d value in each label band. -/
theorem effect_label_step_witness :
    interpretCohenD (JSNum.num (0.1 : ℝ)) = "Negligible" ∧
    interpretCohenD (JSNum.num (0.3 : ℝ)) = "Small" ∧
    interpretCohenD (JSNum.num (0.6 : ℝ)) = "Medium" ∧
    interpretCohenD (JSNum.num (0.9 : ℝ)) = "Large" :=
  ⟨(effect_label_step.1 0.1).1 (by norm_num),
   (effect_label_step.1 0.3).2.1 (by norm_num) (by norm_num),
   (effect_label_step.1 0.6).2.2.1 (by norm_num) (by norm_num),
   (effect_label_step.1 0.9).2.2.2 (by norm_num)⟩

/-! ## Claim C4 — sign and degenerate cases of Cohen's d -/

/-- mathjs variance of a one-element sample is 0 (the explicit
`num === 1` special case of the unbiased branch). -/
theorem mathVarR_single (x : ℝ) : mathVarR [x] = JSNum.num 0 := by
  simp [mathVarR]

/-- mathjs standard deviation of a one-element sample is `√0 = 0`. -/
theorem mathStdR_single (x : ℝ) : mathStdR [x] = JSNum.num 0 := by
  rw [mathStdR, mathVarR_single]
  simp [jsSqrt, Real.sqrt_zero]

/-- Squared deviations sum to a nonnegative value. -/
theorem sumSqDevR_nonneg (l : List ℝ) : 0 ≤ sumSqDevR l := by
  apply List.sum_nonneg
  intro x hx
  obtain ⟨y, _, rfl⟩ := List.mem_map.1 hx
  positivity

/-- mathjs standard deviation of a sample of size ≥ 2 is the real
square root of its unbiased variance. -/
theorem mathStdR_of_two_le {l : List ℝ} (h : 2 ≤ l.length) :
    mathStdR l = JSNum.num (Real.sqrt (sumSqDevR l / ((l.length : ℝ) - 1))) ∧
    0 ≤ sumSqDevR l / ((l.length : ℝ) - 1) := by
  have h2 : (2:ℝ) ≤ (l.length : ℝ) := by exact_mod_cast h
  have hne : ((l.length : ℝ) - 1) ≠ 0 := by linarith
  have hpos : 0 ≤ sumSqDevR l / ((l.length : ℝ) - 1) :=
    div_nonneg (sumSqDevR_nonneg l) (by linarith)
  have hn1 : l.length ≠ 1 := by omega
  refine ⟨?_, hpos⟩
  rw [mathStdR, mathVarR, if_neg hn1, JSNum.jsDiv_num_num_of_ne hne]
  simp only [jsSqrt, if_neg (not_lt.2 hpos)]

/-- For two samples of size ≥ 2, the pooled standard deviation inside
`cohenD` collapses to `sqrt((ssd1 + ssd2)/(n1 + n2 - 2))`. -/
theorem cohenD_of_two_le {a1 a2 : List ℝ} (h1 : 2 ≤ a1.length) (h2 : 2 ≤ a2.length) :
    cohenD a1 a2 = JSNum.jsDiv (JSNum.num |meanR a1 - meanR a2|)
      (jsSqrt (JSNum.num ((sumSqDevR a1 + sumSqDevR a2) /
        ((a1.length : ℝ) + (a2.length : ℝ) - 2)))) := by
  obtain ⟨hs1, hv1⟩ := mathStdR_of_two_le h1
  obtain ⟨hs2, hv2⟩ := mathStdR_of_two_le h2
  have h1r : (2:ℝ) ≤ (a1.length : ℝ) := by exact_mod_cast h1
  have h2r : (2:ℝ) ≤ (a2.length : ℝ) := by exact_mod_cast h2
  have hne1 : ((a1.length : ℝ) - 1) ≠ 0 := by linarith
  have hne2 : ((a2.length : ℝ) - 1) ≠ 0 := by linarith
  have hden : ((a1.length : ℝ) + (a2.length : ℝ) - 2) ≠ 0 := by linarith
  have hm1 : ((a1.length : ℝ) - 1) * Real.sqrt (sumSqDevR a1 / ((a1.length : ℝ) - 1)) *
      Real.sqrt (sumSqDevR a1 / ((a1.length : ℝ) - 1)) = sumSqDevR a1 := by
    rw [mul_assoc, Real.mul_self_sqrt hv1, mul_comm, div_mul_cancel₀ _ hne1]
  have hm2 : ((a2.length : ℝ) - 1) * Real.sqrt (sumSqDevR a2 / ((a2.length : ℝ) - 1)) *
      Real.sqrt (sumSqDevR a2 / ((a2.length : ℝ) - 1)) = sumSqDevR a2 := by
    rw [mul_assoc, Real.mul_self_sqrt hv2, mul_comm, div_mul_cancel₀ _ hne2]
  unfold cohenD
  rw [if_neg (by omega)]
  rw [hs1, hs2]
  simp only [JSNum.jsMul_num_num, JSNum.jsAdd_num_num]
  rw [hm1, hm2, JSNum.jsDiv_num_num_of_ne hden]

/-- Claim C4 is false on the code: for the singleton samples `[1]` and
`[2]` (n1 = n2 = 1), each standard deviation is 0 but the pooled
variance divides by `n1 + n2 - 2 = 0`, giving `0/0 = NaN`, so `cohenD`
returns `NaN` — a value that is not ≥ 0 under JS comparison. -/
theorem cohenD_nonneg_claim_false :
    cohenD [(1:ℝ)] [2] = JSNum.nan ∧
    JSNum.jsLe (JSNum.num 0) (cohenD [(1:ℝ)] [2]) = false := by
  have h : cohenD [(1:ℝ)] [2] = JSNum.nan := by
    unfold cohenD
    rw [if_neg (by simp)]
    rw [mathStdR_single, mathStdR_single]
    simp only [List.length_cons, List.length_nil, JSNum.jsMul_num_num, JSNum.jsAdd_num_num]
    norm_num
    simp [jsSqrt]
  exact ⟨h, by rw [h]; simp [JSNum.jsLe]⟩

/-- Claim C4 (amended): `cohenD` returns exactly 0 when either sample
is empty; for samples each of size ≥ 2 with positive total squared
deviation it returns a nonnegative finite number; but for two
singleton samples it returns `NaN` (not a value ≥ 0, since the pooled
variance is `0/0`), and when both samples of size ≥ 2 have zero
variance with distinct means it returns `+Infinity`. -/
theorem cohenD_sign_cases :
    (∀ a2 : List ℝ, cohenD [] a2 = JSNum.num 0) ∧
    (∀ a1 : List ℝ, cohenD a1 [] = JSNum.num 0) ∧
    (∀ x y : ℝ, cohenD [x] [y] = JSNum.nan) ∧
    (∀ a1 a2 : List ℝ, 2 ≤ a1.length → 2 ≤ a2.length →
      0 < sumSqDevR a1 + sumSqDevR a2 →
      ∃ r : ℝ, cohenD a1 a2 = JSNum.num r ∧ 0 ≤ r) ∧
    (∀ a1 a2 : List ℝ, 2 ≤ a1.length → 2 ≤ a2.length →
      sumSqDevR a1 = 0 → sumSqDevR a2 = 0 → meanR a1 ≠ meanR a2 →
      cohenD a1 a2 = JSNum.inf) := by
  refine ⟨?_, ?_, ?_, ?_, ?_⟩
  · intro a2
    simp [cohenD]
  · intro a1
    simp [cohenD]
  · intro x y
    unfold cohenD
    rw [if_neg (by simp)]
    rw [mathStdR_single, mathStdR_single]
    simp only [List.length_cons, List.length_nil, JSNum.jsMul_num_num, JSNum.jsAdd_num_num]
    norm_num
    simp [jsSqrt]
  · intro a1 a2 h1 h2 hpos
    rw [cohenD_of_two_le h1 h2]
    have h1r : (2:ℝ) ≤ (a1.length : ℝ) := by exact_mod_cast h1
    have h2r : (2:ℝ) ≤ (a2.length : ℝ) := by exact_mod_cast h2
    have hdenpos : 0 < (a1.length : ℝ) + (a2.length : ℝ) - 2 := by linarith
    have hp : 0 < (sumSqDevR a1 + sumSqDevR a2) /
        ((a1.length : ℝ) + (a2.length : ℝ) - 2) := div_pos hpos hdenpos
    simp only [jsSqrt, if_neg (not_lt.2 hp.le)]
    rw [JSNum.jsDiv_num_num_of_ne (Real.sqrt_ne_zero'.2 hp)]
    exact ⟨_, rfl, div_nonneg (abs_nonneg _) (Real.sqrt_nonneg _)⟩
  · intro a1 a2 h1 h2 hz1 hz2 hmean
    rw [cohenD_of_two_le h1 h2, hz1, hz2]
    have hz : ((0:ℝ) + 0) / ((a1.length : ℝ) + (a2.length : ℝ) - 2) = 0 := by
      norm_num
    rw [hz]
    simp only [jsSqrt, if_neg (lt_irrefl (0:ℝ)), Real.sqrt_zero]
    exact JSNum.jsDiv_num_zero_pos (abs_pos.2 (sub_ne_zero.2 hmean))

/-- Witness for the amended C4 theorem: a regular pair of samples gives
a nonnegative finite d, and two zero-variance samples with distinct
means give `+Infinity`. -/
theorem cohenD_sign_cases_witness :
    (∃ r : ℝ, cohenD [0, 2] [0, 0] = JSNum.num r ∧ 0 ≤ r) ∧
    cohenD [(0:ℝ), 0] [1, 1] = JSNum.inf :=
  ⟨cohenD_sign_cases.2.2.2.1 [0, 2] [0, 0] (by simp) (by simp)
      (by simp [sumSqDevR, meanR]; norm_num),
   cohenD_sign_cases.2.2.2.2 [(0:ℝ), 0] [1, 1] (by simp) (by simp)
      (by simp [sumSqDevR, meanR])
      (by simp [sumSqDevR, meanR])
      (by simp [meanR])⟩

end Bioreactor
